import Mathlib

/-!
Verification of the order-notification bridge (src/app.py, src/db.py).

Phone strings are modelled as `List Char` (the Python code works on them
character by character); configuration values and external collaborators
(database rows, the messaging HTTP endpoint) are explicit parameters.
A Python exception crossing a function boundary is modelled with `Except`.
-/

namespace InsearchOrderId

/-! ### Phone normalizer and matcher — src/db.py -/

/-- `normalize_phone` (src/db.py lines 27-31): falsy input yields `""`,
otherwise keep only the decimal digit characters. -/
def normalize_phone (phone : List Char) : List Char :=
  if phone.isEmpty then [] else phone.filter Char.isDigit

/-- Python slice `s[-9:]` specialised to `n = 9`: the last `n` characters,
or the whole string when it is shorter than `n`. -/
def lastN (n : Nat) (l : List Char) : List Char :=
  l.drop (l.length - n)

/-- `phone_matches` (src/db.py lines 34-47): normalize both inputs; false if
either normal form is empty; true on exact equality; otherwise compare the
last 9 characters. -/
def phone_matches (db_phone wa_phone : List Char) : Bool :=
  let db_norm := normalize_phone db_phone
  let wa_norm := normalize_phone wa_phone
  if db_norm.isEmpty || wa_norm.isEmpty then false
  else if db_norm == wa_norm then true
  else lastN 9 db_norm == lastN 9 wa_norm

theorem normalize_phone_eq_filter (phone : List Char) :
    normalize_phone phone = phone.filter Char.isDigit := by
  cases phone <;> simp [normalize_phone]

theorem lastN_length (n : Nat) (l : List Char) :
    (lastN n l).length = min l.length n := by
  simp [lastN]
  omega

theorem lastN_of_length_le (n : Nat) (l : List Char) (h : l.length ≤ n) :
    lastN n l = l := by
  simp [lastN, Nat.sub_eq_zero_of_le h]

/-- C10: the phone normalizer is total, digit-only, empty-on-empty and
idempotent: `normalize(normalize(x)) = normalize(x)` for every input. -/
theorem normalize_phone_total_idempotent (x : List Char) :
    (normalize_phone x).all Char.isDigit = true ∧
    normalize_phone [] = [] ∧
    normalize_phone (normalize_phone x) = normalize_phone x := by
  refine ⟨?_, rfl, ?_⟩
  · simp only [normalize_phone_eq_filter, List.all_eq_true]
    intro c hc
    exact (List.mem_filter.mp hc).2
  · simp [normalize_phone_eq_filter, List.filter_filter]

/-! ### Order fetch and authorization — src/db.py `fetch_order_with_validation` -/

/-- A row of the `oc_order` / `oc_customer` / `oc_order_status` join
(src/db.py lines 65-82). SQL columns may be NULL, hence `Option`. -/
structure DbRow where
  order_id : Nat
  firstname : Option String
  lastname : Option String
  order_phone : Option (List Char)
  date_added : String
  total : String
  status_name : Option String
  customer_phone : Option (List Char)

/-- The order projection built by `fetch_order_with_validation`
(src/db.py lines 101-108). -/
structure Order where
  order_id : String
  customer_name : String
  status : String
  total : String
  date_added : String
  tracking_url : String
deriving DecidableEq

/-- Python `a or d` for an optional phone string: `None` and `""` are falsy. -/
def orPhone : Option (List Char) → List Char → List Char
  | some s, d => if s.isEmpty then d else s
  | none, d => d

/-- Python `a or d` for an optional text field: `None` and `""` are falsy. -/
def orString : Option String → String → String
  | some s, d => if s = "" then d else s
  | none, d => d

/-- `row.get("order_phone") or row.get("customer_phone") or ""`
(src/db.py line 89). -/
def storedPhone (row : DbRow) : List Char :=
  orPhone row.order_phone (orPhone row.customer_phone [])

/-- The order dict assembled from a found row (src/db.py lines 92-108). -/
def mkOrder (row : DbRow) : Order :=
  let raw_name := ((orString row.firstname "") ++ " " ++
    (orString row.lastname "")).trim
  { order_id := toString row.order_id
    customer_name := if raw_name = "" then "Customer" else raw_name
    status := orString row.status_name "Unknown"
    total := row.total
    date_added := row.date_added
    tracking_url := "https://www.ipshopy.com/index.php?" ++
      "route=account/order/info&order_id=" ++ toString row.order_id }

/-- `fetch_order_with_validation` (src/db.py lines 50-112) given a connected
database, modelled as a partial map from order id to the joined row. -/
def fetch_order_with_validation (db : Nat → Option DbRow) (order_id : Nat)
    (wa_phone : List Char) : Option Order × Bool :=
  match db order_id with
  | none => (none, false)
  | some row => (some (mkOrder row), phone_matches (storedPhone row) wa_phone)

/-- The same function including the connection step (src/db.py lines 55-59):
a connection fault is re-raised as `Database connection failed: ...`; every
other outcome returns normally. -/
def fetch_order_with_validation_conn (conn : Except String (Nat → Option DbRow))
    (order_id : Nat) (wa_phone : List Char) :
    Except String (Option Order × Bool) :=
  match conn with
  | .error e => .error ("Database connection failed: " ++ e)
  | .ok db => .ok (fetch_order_with_validation db order_id wa_phone)

/-- C4: no row gives (absent, false); a row with a non-matching stored phone
gives (Order, false); a matching one gives (Order, true); not-found and
not-authorized outcomes return normally, and only a data-access fault
propagates as an error. -/
theorem fetch_order_with_validation_spec (db : Nat → Option DbRow)
    (order_id : Nat) (wa_phone : List Char) :
    (db order_id = none →
      fetch_order_with_validation db order_id wa_phone = (none, false)) ∧
    (∀ row, db order_id = some row →
      phone_matches (storedPhone row) wa_phone = false →
      fetch_order_with_validation db order_id wa_phone =
        (some (mkOrder row), false)) ∧
    (∀ row, db order_id = some row →
      phone_matches (storedPhone row) wa_phone = true →
      fetch_order_with_validation db order_id wa_phone =
        (some (mkOrder row), true)) ∧
    fetch_order_with_validation_conn (.ok db) order_id wa_phone =
      .ok (fetch_order_with_validation db order_id wa_phone) ∧
    (∀ e, fetch_order_with_validation_conn (.error e) order_id wa_phone =
      .error ("Database connection failed: " ++ e)) := by
  refine ⟨?_, ?_, ?_, rfl, fun e => rfl⟩
  · intro h
    simp [fetch_order_with_validation, h]
  · intro row hrow hm
    simp [fetch_order_with_validation, hrow, hm]
  · intro row hrow hm
    simp [fetch_order_with_validation, hrow, hm]

theorem fetch_order_with_validation_spec_witness :
    fetch_order_with_validation (fun _ => none) 178541 "+917588348865".data =
      (none, false) :=
  (fetch_order_with_validation_spec (fun _ => none) 178541
    "+917588348865".data).1 rfl

/-- C2: if either canonical form is empty the matcher is false; when both are
nonempty and not exactly equal it is true iff the last 9 characters agree; a
form shorter than 9 digits that is not exactly equal to the other never
matches. -/
theorem phone_matches_eq_last9 (db wa : List Char)
    (h1 : normalize_phone db ≠ []) (h2 : normalize_phone wa ≠ [])
    (h3 : normalize_phone db ≠ normalize_phone wa) :
    phone_matches db wa =
      (lastN 9 (normalize_phone db) == lastN 9 (normalize_phone wa)) := by
  unfold phone_matches
  simp [h1, h2, h3]

theorem phone_matches_last9_spec (db wa : List Char) :
    (normalize_phone db = [] ∨ normalize_phone wa = [] →
      phone_matches db wa = false) ∧
    (normalize_phone db ≠ [] → normalize_phone wa ≠ [] →
      normalize_phone db ≠ normalize_phone wa →
      (phone_matches db wa = true ↔
        lastN 9 (normalize_phone db) = lastN 9 (normalize_phone wa))) ∧
    (normalize_phone db ≠ [] → (normalize_phone db).length < 9 →
      normalize_phone db ≠ normalize_phone wa →
      phone_matches db wa = false) := by
  refine ⟨?_, ?_, ?_⟩
  · intro h
    unfold phone_matches
    rcases h with h | h <;> simp [h]
  · intro h1 h2 h3
    rw [phone_matches_eq_last9 db wa h1 h2 h3]
    exact beq_iff_eq
  · intro h1 hlen h3
    by_cases h2 : normalize_phone wa = []
    · unfold phone_matches
      simp [h2]
    · rw [phone_matches_eq_last9 db wa h1 h2 h3, beq_eq_false_iff_ne]
      intro heq
      have hlend := lastN_length 9 (normalize_phone db)
      have hlenw := lastN_length 9 (normalize_phone wa)
      rw [heq] at hlend
      have hwlt : (normalize_phone wa).length < 9 := by omega
      rw [lastN_of_length_le 9 _ (by omega),
          lastN_of_length_le 9 _ (by omega)] at heq
      exact h3 heq

theorem phone_matches_last9_spec_witness :
    phone_matches "+917588348865".data "07588348865".data = true :=
  ((phone_matches_last9_spec "+917588348865".data "07588348865".data).2.1
    (by decide) (by decide) (by decide)).mpr (by decide)

/-- C3 counterexample: the raw inputs `"+"` and `"-"` have equal canonical
digit forms (both empty), yet the matcher returns false. -/
theorem phone_matches_equal_forms_cex :
    normalize_phone ['+'] = normalize_phone ['-'] ∧
    phone_matches ['+'] ['-'] = false := by
  exact ⟨rfl, rfl⟩

/-- C3 amended: when the canonical digit forms of the two inputs are equal
and nonempty, the matcher returns true. -/
theorem phone_matches_of_equal_nonempty (db wa : List Char)
    (hne : normalize_phone db ≠ [])
    (heq : normalize_phone db = normalize_phone wa) :
    phone_matches db wa = true := by
  unfold phone_matches
  rw [← heq]
  simp [hne]

theorem phone_matches_of_equal_nonempty_witness :
    phone_matches "7588348865".data " 758-834-8865 ".data = true :=
  phone_matches_of_equal_nonempty _ _ (by decide) (by decide)

/-! ### Country-code split — src/app.py `parse_phone_number` -/

/-- Python `str.strip()`: whitespace removed from both ends. -/
def pyStrip (s : List Char) : List Char :=
  ((s.dropWhile Char.isWhitespace).reverse.dropWhile Char.isWhitespace).reverse

/-- Python `s.startswith(p)` on character lists: the first `p.length`
characters of `l` are exactly `p`. -/
def listStartsWith (p l : List Char) : Bool :=
  l.take p.length == p

/-- The cleaning step of `parse_phone_number` (src/app.py lines 41-44):
strip, then keep only digits and `+`. -/
def clean_phone (phone : List Char) : List Char :=
  (pyStrip phone).filter (fun ch => ch.isDigit || ch == '+')

/-- `parse_phone_number` (src/app.py lines 35-69), parametrised by the
configured `DEFAULT_COUNTRY_CODE`. -/
def parse_phone_number (default_cc : List Char) (phone : List Char) :
    List Char × List Char :=
  let phone_clean := clean_phone phone
  if listStartsWith ['+'] phone_clean then
    let pc := phone_clean.drop 1
    if listStartsWith ['9', '1'] pc ∧ 12 ≤ pc.length then
      (['+', '9', '1'], pc.drop 2)
    else if listStartsWith ['1'] pc ∧ 11 ≤ pc.length then
      (['+', '1'], pc.drop 1)
    else if 12 ≤ pc.length ∧ listStartsWith ['9', '1'] pc then
      (['+', '9', '1'], pc.drop 2)
    else
      (default_cc, pc)
  else if listStartsWith ['9', '1'] phone_clean ∧ 12 ≤ phone_clean.length then
    (['+', '9', '1'], phone_clean.drop 2)
  else
    (default_cc, phone_clean)

/-- C8: the country-code split. With a leading `+`, digits starting `"91"`
and length ≥ 12 give prefix `+91`; digits starting `"1"` and length ≥ 11
give `+1`; any other `+` number falls back to the default country code with
the full cleaned digit string; without `+`, digits starting `"91"` of
length ≥ 12 are also `+91`, and everything else gets the default. -/
theorem parse_phone_number_spec (default_cc phone : List Char) :
    (∀ rest, clean_phone phone = '+' :: rest → rest.all Char.isDigit →
      listStartsWith ['9', '1'] rest = true → 12 ≤ rest.length →
      parse_phone_number default_cc phone = (['+', '9', '1'], rest.drop 2)) ∧
    (∀ rest, clean_phone phone = '+' :: rest → rest.all Char.isDigit →
      listStartsWith ['1'] rest = true → 11 ≤ rest.length →
      parse_phone_number default_cc phone = (['+', '1'], rest.drop 1)) ∧
    (∀ rest, clean_phone phone = '+' :: rest → rest.all Char.isDigit →
      ¬(listStartsWith ['9', '1'] rest = true ∧ 12 ≤ rest.length) →
      ¬(listStartsWith ['1'] rest = true ∧ 11 ≤ rest.length) →
      parse_phone_number default_cc phone = (default_cc, rest)) ∧
    (listStartsWith ['+'] (clean_phone phone) = false →
      listStartsWith ['9', '1'] (clean_phone phone) = true →
      12 ≤ (clean_phone phone).length →
      parse_phone_number default_cc phone =
        (['+', '9', '1'], (clean_phone phone).drop 2)) ∧
    (listStartsWith ['+'] (clean_phone phone) = false →
      ¬(listStartsWith ['9', '1'] (clean_phone phone) = true ∧
        12 ≤ (clean_phone phone).length) →
      parse_phone_number default_cc phone = (default_cc, clean_phone phone)) := by
  refine ⟨?_, ?_, ?_, ?_, ?_⟩
  · intro rest hclean _ hs hlen
    simp [listStartsWith] at hs
    simp [parse_phone_number, hclean, listStartsWith, hs, hlen]
  · intro rest hclean _ hs hlen
    simp [listStartsWith] at hs
    have h91 : ¬(rest.take 2 = ['9', '1']) := by
      intro h2
      have h1t := congrArg (List.take 1) h2
      rw [List.take_take] at h1t
      simp at h1t
      rw [hs] at h1t
      exact (by decide : ¬(['1'] : List Char) = ['9']) h1t
    simp [parse_phone_number, hclean, listStartsWith, hs, hlen, h91]
  · intro rest hclean _ h1 h2
    have h1' : ¬(rest.take 2 = ['9', '1'] ∧ 12 ≤ rest.length) := by
      intro h
      exact h1 ⟨by simpa [listStartsWith] using h.1, h.2⟩
    have h2' : ¬(rest.take 1 = ['1'] ∧ 11 ≤ rest.length) := by
      intro h
      exact h2 ⟨by simpa [listStartsWith] using h.1, h.2⟩
    have h3' : ¬(12 ≤ rest.length ∧ rest.take 2 = ['9', '1']) :=
      fun h => h1' ⟨h.2, h.1⟩
    simp [parse_phone_number, hclean, listStartsWith, h1', h2', h3']
  · intro hplus hs hlen
    simp [listStartsWith] at hplus hs
    simp [parse_phone_number, listStartsWith, hplus, hs, hlen]
  · intro hplus hcond
    have hcond' : ¬((clean_phone phone).take 2 = ['9', '1'] ∧
        12 ≤ (clean_phone phone).length) := by
      intro h
      exact hcond ⟨by simpa [listStartsWith] using h.1, h.2⟩
    simp [listStartsWith] at hplus
    simp [parse_phone_number, listStartsWith, hplus, hcond']

theorem parse_phone_number_spec_witness :
    parse_phone_number "+91".data "+917588348865".data =
      (['+', '9', '1'], ("917588348865".data).drop 2) :=
  (parse_phone_number_spec "+91".data "+917588348865".data).1
    "917588348865".data (by decide) (by decide) (by decide) (by decide)

/-! ### Messaging gateway adapter — src/app.py `interakt_send_order_status` -/

def INTERAKT_TEMPLATE_NAME : String := "insearch_of_order_id"

def INTERAKT_TEMPLATE_LANG : String := "en"

/-- The request built for the external messaging API
(src/app.py lines 97-115). The template body and first-button parameter
lists are kept explicitly. -/
structure InteraktPayload where
  countryCode : List Char
  phoneNumber : List Char
  callbackData : String
  templateName : String
  languageCode : String
  bodyValues : List String
  buttonValues0 : List String
deriving DecidableEq

/-- `interakt_send_order_status` (src/app.py lines 72-123). The HTTP POST
collaborator is `net`; a transport fault there is its `.error` case. The
response body (JSON or the raw-text fallback) is an opaque string. A falsy
`INTERAKT_API_KEY` (unset or empty) raises before any network interaction. -/
def interakt_send_order_status (api_key : Option String)
    (default_cc : List Char)
    (net : InteraktPayload → Except String (Nat × String))
    (order_data : Order) (phone_number : List Char) :
    Except String (Nat × String) :=
  if api_key.getD "" = "" then .error "INTERAKT_API_KEY not set in .env"
  else
    let parsed := parse_phone_number default_cc phone_number
    net { countryCode := parsed.1
          phoneNumber := parsed.2
          callbackData := "order:" ++ order_data.order_id
          templateName := INTERAKT_TEMPLATE_NAME
          languageCode := INTERAKT_TEMPLATE_LANG
          bodyValues := [order_data.customer_name]
          buttonValues0 := [order_data.order_id] }

/-! ### Batch sender — src/app.py `send_batch_whatsapp_messages` -/

/-- Per-item outcome tag in the batch details list. -/
inductive DetailStatus where
  | skipped
  | success
  | failed
  | error
deriving DecidableEq

/-- One entry of the `details` list (src/app.py lines 153-157, 175-181,
184-191, 199-205). Keys absent from a given entry are `none`. -/
structure Detail where
  order_id : String
  status : DetailStatus
  reason : Option String := none
  phone : Option (List Char) := none
  customer_name : Option String := none
  whatsapp_status_code : Option Nat := none
  error_body : Option String := none
deriving DecidableEq

/-- An order record consumed by the batch sender. The source reads the
fields with `.get` and defaults, so every field is total here. -/
structure OrderRec where
  order_id : String
  customer_name : String
  phone : List Char
  status : String := "Unknown"
  total : String := ""
  date_added : String := ""
  tracking_url : String := ""
deriving DecidableEq

/-- The order_data dict built inside the batch loop
(src/app.py lines 162-169). -/
def interakt_order_data (order : OrderRec) : Order :=
  { order_id := order.order_id
    customer_name := order.customer_name
    status := order.status
    total := order.total
    date_added := order.date_added
    tracking_url := order.tracking_url }

/-- The skip test `not phone or len(phone.strip()) < 10`
(src/app.py line 151). -/
def skip_condition (phone : List Char) : Bool :=
  phone.isEmpty || decide ((pyStrip phone).length < 10)

/-- Observable side effects of a batch run, in chronological order: gateway
invocations and `time.sleep` pauses. -/
inductive Event where
  | call (order_id : String)
  | sleep (delay : ℚ)
deriving DecidableEq

/-- `if delay_seconds > 0: time.sleep(delay_seconds)`
(src/app.py lines 194-195). -/
def sleep_events (delay : ℚ) : List Event :=
  if 0 < delay then [Event.sleep delay] else []

/-- Accumulated state of the batch loop: the three counters, the details
list and the event trace. -/
structure LoopOut where
  success : Nat
  failed : Nat
  skipped : Nat
  details : List Detail
  events : List Event
deriving DecidableEq

/-- The loop body of `send_batch_whatsapp_messages`
(src/app.py lines 147-205): skip short or missing phones without calling
the gateway; otherwise call it — 200/201 is success, any other status is
failed with the body attached, and a raised exception is caught as a
per-item `error` detail counted under `failed`. The pause runs only after
a call that returned (src/app.py lines 193-195). -/
def process_orders (gw : Order → List Char → Except String (Nat × String))
    (delay_seconds : ℚ) : List OrderRec → LoopOut
  | [] => ⟨0, 0, 0, [], []⟩
  | order :: rest =>
    let out := process_orders gw delay_seconds rest
    if skip_condition order.phone then
      ⟨out.success, out.failed, out.skipped + 1,
        { order_id := order.order_id, status := .skipped,
          reason := some "No phone number" } :: out.details,
        out.events⟩
    else
      match gw (interakt_order_data order) order.phone with
      | .ok (status_code, body) =>
        if status_code = 200 ∨ status_code = 201 then
          ⟨out.success + 1, out.failed, out.skipped,
            { order_id := order.order_id, status := .success,
              phone := some order.phone,
              customer_name := some order.customer_name,
              whatsapp_status_code := some status_code } :: out.details,
            Event.call order.order_id ::
              (sleep_events delay_seconds ++ out.events)⟩
        else
          ⟨out.success, out.failed + 1, out.skipped,
            { order_id := order.order_id, status := .failed,
              phone := some order.phone,
              customer_name := some order.customer_name,
              whatsapp_status_code := some status_code,
              error_body := some body } :: out.details,
            Event.call order.order_id ::
              (sleep_events delay_seconds ++ out.events)⟩
      | .error e =>
        ⟨out.success, out.failed + 1, out.skipped,
          { order_id := order.order_id, status := .error,
            phone := some order.phone,
            customer_name := some order.customer_name,
            error_body := some e } :: out.details,
          Event.call order.order_id :: out.events⟩

/-- The aggregate returned by the batch sender (src/app.py lines 139-145). -/
structure BatchResult where
  total : Nat
  success : Nat
  failed : Nat
  skipped : Nat
  details : List Detail
deriving DecidableEq

/-- `send_batch_whatsapp_messages` (src/app.py lines 126-207), returning the
aggregate and the chronological event trace. -/
def send_batch_whatsapp_messages
    (gw : Order → List Char → Except String (Nat × String))
    (orders : List OrderRec) (delay_seconds : ℚ) : BatchResult × List Event :=
  let out := process_orders gw delay_seconds orders
  ({ total := orders.length, success := out.success, failed := out.failed,
     skipped := out.skipped, details := out.details }, out.events)

/-! ### Automation endpoint — src/app.py `automate_send_messages` -/

/-- The three response shapes of `/api/automate/send-messages` after a
successful fetch (src/app.py lines 397-442). -/
inductive AutomateResponse where
  | not_found
  | dry_run_list (orders : List OrderRec)
  | sent (result : BatchResult)
deriving DecidableEq

/-- HTTP status code and top-level `success` flag of each response shape
(src/app.py lines 398-407, 411-422, 427-442). -/
def automate_http_status : AutomateResponse → Nat × Bool
  | .not_found => (404, false)
  | .dry_run_list _ => (200, true)
  | .sent _ => (200, true)

/-- `automate_send_messages` (src/app.py lines 350-449) after the database
fetch: empty list gives the 404 branch; `dry_run` returns the list without
sending; otherwise the batch sender runs. -/
def automate_send_messages
    (gw : Order → List Char → Except String (Nat × String))
    (orders : List OrderRec) (delay_seconds : ℚ) (dry_run : Bool) :
    AutomateResponse × List Event :=
  if orders.isEmpty then (.not_found, [])
  else if dry_run then (.dry_run_list orders, [])
  else
    let r := send_batch_whatsapp_messages gw orders delay_seconds
    (.sent r.1, r.2)

theorem process_orders_counts
    (gw : Order → List Char → Except String (Nat × String))
    (delay : ℚ) (orders : List OrderRec) :
    (process_orders gw delay orders).success +
      (process_orders gw delay orders).failed +
      (process_orders gw delay orders).skipped = orders.length ∧
    (process_orders gw delay orders).details.map Detail.order_id =
      orders.map OrderRec.order_id := by
  induction orders with
  | nil => exact ⟨rfl, rfl⟩
  | cons o rest ih =>
    obtain ⟨ih1, ih2⟩ := ih
    by_cases hs : skip_condition o.phone = true
    · simp [process_orders, hs, ih2]
      omega
    · cases hgw : gw (interakt_order_data o) o.phone with
      | ok v =>
        obtain ⟨code, body⟩ := v
        by_cases hc : code = 200 ∨ code = 201
        · simp [process_orders, hs, hgw, hc, ih2]
          omega
        · simp [process_orders, hs, hgw, hc, ih2]
          omega
      | error e =>
        simp [process_orders, hs, hgw, ih2]
        omega

/-- C1: the four counts of a BatchResult satisfy
success + failed + skipped = total, total is the input length, the details
list has exactly one record per input order in input order, and the empty
input gives the all-zero result. -/
theorem send_batch_result_invariant
    (gw : Order → List Char → Except String (Nat × String))
    (orders : List OrderRec) (delay : ℚ) :
    (send_batch_whatsapp_messages gw orders delay).1.success +
      (send_batch_whatsapp_messages gw orders delay).1.failed +
      (send_batch_whatsapp_messages gw orders delay).1.skipped =
      (send_batch_whatsapp_messages gw orders delay).1.total ∧
    (send_batch_whatsapp_messages gw orders delay).1.total = orders.length ∧
    (send_batch_whatsapp_messages gw orders delay).1.details.length =
      (send_batch_whatsapp_messages gw orders delay).1.total ∧
    (send_batch_whatsapp_messages gw orders delay).1.details.map
      Detail.order_id = orders.map OrderRec.order_id ∧
    (send_batch_whatsapp_messages gw [] delay).1 =
      { total := 0, success := 0, failed := 0, skipped := 0, details := [] } := by
  have h := process_orders_counts gw delay orders
  refine ⟨?_, rfl, ?_, ?_, rfl⟩
  · simpa [send_batch_whatsapp_messages] using h.1
  · have hlen := congrArg List.length h.2
    simpa [send_batch_whatsapp_messages] using hlen
  · simpa [send_batch_whatsapp_messages] using h.2

/-- C5: a missing or short (trimmed length under 10) phone records a skipped
outcome with no gateway call; otherwise the gateway runs — 200/201 gives
success, any other status gives failed with the body attached; a raised
call gives an `error` detail, increments the failed count, and leaves the
remaining orders processed as before. -/
theorem batch_item_outcomes
    (gw : Order → List Char → Except String (Nat × String))
    (delay : ℚ) (o : OrderRec) (rest : List OrderRec) :
    (skip_condition o.phone = true →
      (process_orders gw delay (o :: rest)).details.head?.map Detail.status =
        some .skipped ∧
      (process_orders gw delay (o :: rest)).events =
        (process_orders gw delay rest).events) ∧
    (skip_condition o.phone = false →
      (process_orders gw delay (o :: rest)).events.head? =
        some (Event.call o.order_id)) ∧
    (∀ code body, skip_condition o.phone = false →
      gw (interakt_order_data o) o.phone = .ok (code, body) →
      ((code = 200 ∨ code = 201) →
        (process_orders gw delay (o :: rest)).details.head?.map Detail.status =
          some .success) ∧
      (¬(code = 200 ∨ code = 201) →
        (process_orders gw delay (o :: rest)).details.head?.map Detail.status =
          some .failed ∧
        ((process_orders gw delay (o :: rest)).details.head?.bind
          Detail.error_body) = some body)) ∧
    (∀ e, skip_condition o.phone = false →
      gw (interakt_order_data o) o.phone = .error e →
      (process_orders gw delay (o :: rest)).details.head?.map Detail.status =
        some .error ∧
      (process_orders gw delay (o :: rest)).failed =
        (process_orders gw delay rest).failed + 1 ∧
      (process_orders gw delay (o :: rest)).details.tail =
        (process_orders gw delay rest).details) := by
  refine ⟨?_, ?_, ?_, ?_⟩
  · intro hs
    simp [process_orders, hs]
  · intro hs
    cases hgw : gw (interakt_order_data o) o.phone with
    | ok v =>
      obtain ⟨code, body⟩ := v
      by_cases hc : code = 200 ∨ code = 201
      · simp [process_orders, hs, hgw, hc]
      · simp [process_orders, hs, hgw, hc]
    | error e =>
      simp [process_orders, hs, hgw]
  · intro code body hs hgw
    constructor
    · intro hc
      simp [process_orders, hs, hgw, hc]
    · intro hc
      simp [process_orders, hs, hgw, hc]
  · intro e hs hgw
    simp [process_orders, hs, hgw]

def c5Order : OrderRec :=
  { order_id := "178541", customer_name := "Jane Doe", phone := "123".data }

theorem batch_item_outcomes_witness :
    (process_orders (fun _ _ => .ok (200, "")) 1 [c5Order]).details.head?.map
      Detail.status = some DetailStatus.skipped ∧
    (process_orders (fun _ _ => .ok (200, "")) 1 [c5Order]).events =
      (process_orders (fun _ _ => .ok (200, "")) 1 []).events :=
  (batch_item_outcomes (fun _ _ => .ok (200, "")) 1 c5Order []).1 (by decide)

def isSleep : Event → Bool
  | .sleep _ => true
  | .call _ => false

/-- A detail whose item actually reached the gateway and got a response:
status `success` or `failed`. -/
def counts_as_sent (d : Detail) : Bool :=
  match d.status with
  | .success => true
  | .failed => true
  | _ => false

/-- Every sleep in the trace directly follows a gateway call. -/
def sleeps_follow_calls : List Event → Bool
  | [] => true
  | .sleep _ :: _ => false
  | .call _ :: .sleep _ :: rest => sleeps_follow_calls rest
  | .call _ :: rest => sleeps_follow_calls rest

theorem sleeps_follow_calls_cons_call (oid : String) (es : List Event)
    (h : sleeps_follow_calls es = true) :
    sleeps_follow_calls (Event.call oid :: es) = true := by
  cases es with
  | nil => rfl
  | cons e es' =>
    cases e with
    | sleep d => simp [sleeps_follow_calls] at h
    | call oid' =>
      cases es' with
      | nil => simp [sleeps_follow_calls]
      | cons e' es'' =>
        cases e' with
        | sleep d => simpa [sleeps_follow_calls] using h
        | call oid'' => simpa [sleeps_follow_calls] using h

theorem process_orders_sleep_count
    (gw : Order → List Char → Except String (Nat × String))
    (delay : ℚ) (hd : 0 < delay) (orders : List OrderRec) :
    (process_orders gw delay orders).events.countP isSleep =
      (process_orders gw delay orders).details.countP counts_as_sent := by
  induction orders with
  | nil => rfl
  | cons o rest ih =>
    by_cases hs : skip_condition o.phone = true
    · simp [process_orders, hs, List.countP_cons, counts_as_sent, ih]
    · cases hgw : gw (interakt_order_data o) o.phone with
      | ok v =>
        obtain ⟨code, body⟩ := v
        by_cases hc : code = 200 ∨ code = 201
        · simp [process_orders, hs, hgw, hc, sleep_events, hd,
            List.countP_cons, List.countP_append, counts_as_sent, isSleep, ih]
        · simp [process_orders, hs, hgw, hc, sleep_events, hd,
            List.countP_cons, List.countP_append, counts_as_sent, isSleep, ih]
      | error e =>
        simp [process_orders, hs, hgw, List.countP_cons, counts_as_sent,
          isSleep, ih]

theorem process_orders_sleep_placement
    (gw : Order → List Char → Except String (Nat × String))
    (delay : ℚ) (orders : List OrderRec) :
    sleeps_follow_calls (process_orders gw delay orders).events = true := by
  induction orders with
  | nil => rfl
  | cons o rest ih =>
    by_cases hs : skip_condition o.phone = true
    · simpa [process_orders, hs] using ih
    · cases hgw : gw (interakt_order_data o) o.phone with
      | ok v =>
        obtain ⟨code, body⟩ := v
        by_cases hdel : 0 < delay
        · by_cases hc : code = 200 ∨ code = 201
          · simpa [process_orders, hs, hgw, hc, sleep_events, hdel,
              sleeps_follow_calls] using ih
          · simpa [process_orders, hs, hgw, hc, sleep_events, hdel,
              sleeps_follow_calls] using ih
        · by_cases hc : code = 200 ∨ code = 201
          · simp [process_orders, hs, hgw, hc, sleep_events, hdel]
            exact sleeps_follow_calls_cons_call _ _ ih
          · simp [process_orders, hs, hgw, hc, sleep_events, hdel]
            exact sleeps_follow_calls_cons_call _ _ ih
      | error e =>
        simp [process_orders, hs, hgw]
        exact sleeps_follow_calls_cons_call _ _ ih

def c7Order : OrderRec :=
  { order_id := "178541", customer_name := "Jane Doe",
    phone := "+917588348865".data }

/-- C7 counterexample: one valid order, gateway answering 200, delay 1 —
the trace is call-then-sleep, so the sender does pause after the final
order, contradicting the claimed "no delay after the final order". -/
theorem batch_sleep_after_final_cex :
    (send_batch_whatsapp_messages (fun _ _ => .ok (200, "")) [c7Order] 1).2 =
      [Event.call "178541", Event.sleep 1] := by
  rfl

/-- C7 amended: with a positive configured delay, the sender pauses exactly
once after every non-skipped attempt whose gateway call returned (status
success or failed) — including after the final order — each pause directly
following its call; skipped items and attempts whose call raised get no
pause. -/
theorem batch_pacing_amended
    (gw : Order → List Char → Except String (Nat × String))
    (orders : List OrderRec) (delay : ℚ) (hd : 0 < delay) :
    (send_batch_whatsapp_messages gw orders delay).2.countP isSleep =
      (send_batch_whatsapp_messages gw orders delay).1.details.countP
        counts_as_sent ∧
    sleeps_follow_calls (send_batch_whatsapp_messages gw orders delay).2 =
      true := by
  constructor
  · simpa [send_batch_whatsapp_messages] using
      process_orders_sleep_count gw delay hd orders
  · simpa [send_batch_whatsapp_messages] using
      process_orders_sleep_placement gw delay orders

theorem batch_pacing_amended_witness :
    (send_batch_whatsapp_messages (fun _ _ => .ok (500, "err")) [c7Order]
      1).2.countP isSleep =
      (send_batch_whatsapp_messages (fun _ _ => .ok (500, "err")) [c7Order]
        1).1.details.countP counts_as_sent ∧
    sleeps_follow_calls
      (send_batch_whatsapp_messages (fun _ _ => .ok (500, "err"))
        [c7Order] 1).2 = true :=
  batch_pacing_amended (fun _ _ => .ok (500, "err")) [c7Order] 1 (by decide)

/-- The gateway as the batch loop uses it: `interakt_send_order_status`
applied to the per-order data (src/app.py line 171). -/
def interakt_gateway (api_key : Option String) (default_cc : List Char)
    (net : InteraktPayload → Except String (Nat × String)) :
    Order → List Char → Except String (Nat × String) :=
  fun order_data phone =>
    interakt_send_order_status api_key default_cc net order_data phone

def c6Order : OrderRec :=
  { order_id := "178541", customer_name := "Jane Doe",
    phone := "+917588348865".data }

def c6OtherOrder : OrderRec :=
  { order_id := "178542", customer_name := "John Roe",
    phone := "+917588348866".data }

/-- C6 counterexample: with the credential missing, a two-order batch run
completes normally — the missing-credential exception is caught by the
per-item handler of the batch loop and recorded as an `error` detail for
each order, so the fault IS caught per-item during a batch run. -/
theorem config_fault_caught_per_item_cex :
    (send_batch_whatsapp_messages
        (interakt_gateway none "+91".data (fun _ => .ok (200, "ok")))
        [c6Order, c6OtherOrder] 0).1 =
      { total := 2, success := 0, failed := 2, skipped := 0,
        details :=
          [{ order_id := "178541", status := .error,
             phone := some "+917588348865".data,
             customer_name := some "Jane Doe",
             error_body := some "INTERAKT_API_KEY not set in .env" },
           { order_id := "178542", status := .error,
             phone := some "+917588348866".data,
             customer_name := some "John Roe",
             error_body := some "INTERAKT_API_KEY not set in .env" }] } := by
  rfl

/-- C6 amended: a missing credential makes the gateway send operation raise
immediately at call time, before any network interaction; during a batch
run this exception is caught by the per-item handler like any other, so
every non-skipped item is recorded as an `error` detail and the batch
completes. -/
theorem config_fault_amended (default_cc : List Char)
    (net : InteraktPayload → Except String (Nat × String)) :
    (∀ order_data phone,
      interakt_send_order_status none default_cc net order_data phone =
        .error "INTERAKT_API_KEY not set in .env") ∧
    (∀ (orders : List OrderRec) (delay : ℚ) (d : Detail),
      d ∈ (send_batch_whatsapp_messages
        (interakt_gateway none default_cc net) orders delay).1.details →
      d.status = .skipped ∨ d.status = .error) := by
  constructor
  · intro od ph
    rfl
  · intro orders delay d hmem
    simp only [send_batch_whatsapp_messages] at hmem
    induction orders with
    | nil =>
      simp [process_orders] at hmem
    | cons o rest ih =>
      by_cases hs : skip_condition o.phone = true
      · simp only [process_orders, hs, if_true, List.mem_cons] at hmem
        rcases hmem with h | h
        · left
          rw [h]
        · exact ih h
      · simp only [process_orders, hs, if_false, Bool.false_eq_true,
          interakt_gateway, interakt_send_order_status, Option.getD_none,
          if_true, ite_true] at hmem
        rw [List.mem_cons] at hmem
        rcases hmem with h | h
        · right
          rw [h]
        · exact ih h

theorem config_fault_amended_witness :
    (interakt_send_order_status none "+91".data (fun _ => .ok (200, "ok"))
      (interakt_order_data c6Order) "+917588348865".data =
        .error "INTERAKT_API_KEY not set in .env") ∧
    (({ order_id := "178541", status := .error,
        phone := some "+917588348865".data,
        customer_name := some "Jane Doe",
        error_body := some "INTERAKT_API_KEY not set in .env" } : Detail).status
          = DetailStatus.skipped ∨
     ({ order_id := "178541", status := .error,
        phone := some "+917588348865".data,
        customer_name := some "Jane Doe",
        error_body := some "INTERAKT_API_KEY not set in .env" } : Detail).status
          = DetailStatus.error) :=
  ⟨(config_fault_amended "+91".data (fun _ => .ok (200, "ok"))).1
      (interakt_order_data c6Order) "+917588348865".data,
   (config_fault_amended "+91".data (fun _ => .ok (200, "ok"))).2
      [c6Order] 0 _ (by decide)⟩

/-- C9: when the database fetch returns no orders, the automation operation
returns the not-found response (404, success flag false) with an empty
event trace — the batch sender never runs and no gateway call happens,
even when dry_run is requested. -/
theorem automate_empty_not_found
    (gw : Order → List Char → Except String (Nat × String))
    (delay : ℚ) (dry_run : Bool) :
    automate_send_messages gw [] delay dry_run =
      (AutomateResponse.not_found, []) ∧
    automate_http_status (automate_send_messages gw [] delay dry_run).1 =
      (404, false) :=
  ⟨rfl, rfl⟩

end InsearchOrderId
